import Mathlib

/-!
Shallow embedding of the PokemonApp client (Vue/TypeScript) for verification.

The embedding models the pure computational content of the code under
verification:

* `src/services/api.config.ts` — the uniform `ApiError` shape, the
  `createApiError` transformer applied by the axios interceptors and the
  `isApiError` predicate.  Runtime JavaScript values that are not statically
  typed (response bodies, error messages extracted from them) are modelled by
  an inductive `Json` type; `JSON.stringify` / `JSON.parse` are collapsed,
  i.e. the local-storage model stores parsed JSON values directly (for data
  produced by `JSON.stringify` the parse of the stringification is the
  identity).
* `src/composables/usePokemonFavorites.ts` — favorites list operations and
  localStorage persistence.
* `src/stores/filter.store.ts` — the debounced search watcher,
  `setSelectedType` and `loadAvailableTypes`.
* `src/stores/pokemon.store.ts` — `totalPages` and `paginationInfo`.
* `src/services/pokemon.service.ts` — `getPokemonList`,
  `searchPokemonByName`, `generateNameVariations`, `getPokemonsByType`,
  `extractIdFromUrl`.
* `src/components/Pagination.vue` and the simple pagination component —
  the two `visiblePages` computations.

HTTP requests are modelled by oracle functions passed as parameters
(`api`, `byName`, `getType`, `fetch`): the oracle's value at the parameters
the code passes is the response the remote server would give.  JavaScript
numbers that the code only ever uses at integral values are modelled as `Int`
(or `Nat` where the source guarantees non-negativity).
-/

/-- Model of a parsed JavaScript/JSON runtime value.  Numbers are modelled as
integers, which covers every numeric value the verified code manipulates. -/
inductive Json where
  | null
  | bool (b : Bool)
  | num (n : Int)
  | str (s : String)
  | arr (items : List Json)
  | obj (fields : List (String × Json))

namespace Json

/-- JavaScript truthiness of a value (`NaN` is not representable here). -/
def truthy : Json → Bool
  | .null => false
  | .bool b => b
  | .num n => n != 0
  | .str s => s != ""
  | .arr _ => true
  | .obj _ => true

/-- Model of `typeof v === 'object'`: true for objects, arrays and `null`. -/
def typeofIsObject : Json → Bool
  | .obj _ => true
  | .arr _ => true
  | .null => true
  | _ => false

/-- Property access `v[k]`: `some` for a present object field, `none`
(i.e. `undefined`) otherwise.  Parsed JSON objects have unique keys, so a
first-match lookup is exact. -/
def get (v : Json) (k : String) : Option Json :=
  match v with
  | .obj fields => fields.lookup k
  | _ => none

/-- Whether a value is a string. -/
def isStr : Json → Bool
  | .str _ => true
  | _ => false

end Json

/-- Truthiness of a possibly-`undefined` value (`undefined` is falsy). -/
def truthyOpt : Option Json → Bool
  | some v => v.truthy
  | none => false

/-- JavaScript `a || b` for a possibly-`undefined` left operand: the left
value if truthy, otherwise the right operand. -/
def jsOrElse (a : Option Json) (b : Json) : Json :=
  match a with
  | some v => if v.truthy then v else b
  | none => b

/-- The `type` union of the `ApiError` interface
(src/types/pokemon.types.ts). -/
inductive ApiErrorType where
  | network
  | server
  | client
  | validation
  | unknown
deriving DecidableEq, Repr

/-- Runtime model of an `ApiError` value (src/types/pokemon.types.ts).
`message` is a `Json` value because `createApiError` copies it out of an
untyped response body; all optional fields are `Option`s, `none` meaning the
key is absent. -/
structure ApiError where
  message : Json
  status : Option Int := none
  detail : Option Json := none
  type : Option ApiErrorType := none
  timestamp : Option String := none
  field : Option Json := none

/-- Model of `error.response` on an `AxiosError`. -/
structure AxiosResponseModel where
  status : Int
  statusText : String
  data : Json

/-- Model of an `AxiosError`: `response` is present when an HTTP response was
received, `requestPresent` models truthiness of `error.request`, `message`
is the error's own message string. -/
structure AxiosErrorModel where
  response : Option AxiosResponseModel := none
  requestPresent : Bool := false
  message : String := ""

/-- `getStatusMessage` from src/services/api.config.ts. -/
def getStatusMessage (status : Int) : String :=
  if status = 400 then "Petición incorrecta. Verifique los parámetros enviados."
  else if status = 401 then "No autorizado. Verifique sus credenciales."
  else if status = 403 then "Acceso prohibido."
  else if status = 404 then "Recurso no encontrado. El Pokémon o endpoint solicitado no existe."
  else if status = 408 then "Tiempo de espera agotado. Intente nuevamente."
  else if status = 429 then "Demasiadas peticiones. Espere un momento antes de intentar nuevamente."
  else if status = 500 then "Error interno del servidor. Intente más tarde."
  else if status = 502 then "Puerta de enlace incorrecta. El servidor está temporalmente no disponible."
  else if status = 503 then "Servicio no disponible. Intente más tarde."
  else if status = 504 then "Tiempo de espera del servidor agotado."
  else "Error " ++ toString status ++ ": Ocurrió un problema inesperado."

/-- `createApiError` from src/services/api.config.ts.  `t` is the `type`
default parameter (callers pass `'unknown'` or `'client'`); `now` is the
value of `new Date().toISOString()` at the call. -/
def createApiError (error : AxiosErrorModel) (t : ApiErrorType) (now : String) : ApiError :=
  match error.response with
  | some r =>
    -- server responded with an error status (4xx, 5xx)
    let ty := if r.status ≥ 500 then ApiErrorType.server else ApiErrorType.client
    if r.data.truthy ∧ r.data.typeofIsObject then
      { message := jsOrElse (r.data.get "message")
          (jsOrElse (r.data.get "detail") (.str (getStatusMessage r.status))),
        status := some r.status,
        type := some ty,
        field := if truthyOpt (r.data.get "field") then r.data.get "field" else none,
        detail := some (.str ("HTTP " ++ toString r.status ++ ": " ++ r.statusText)),
        timestamp := some now }
    else
      { message := .str (getStatusMessage r.status),
        status := some r.status,
        type := some ty,
        detail := some (.str ("HTTP " ++ toString r.status ++ ": " ++ r.statusText)),
        timestamp := some now }
  | none =>
    if error.requestPresent then
      -- network error: request was sent, no response
      { message := .str "Error de conexión. Verifique su conexión a internet.",
        type := some .network,
        detail := some (.str "No se pudo conectar con el servidor de PokéAPI"),
        timestamp := some now }
    else
      -- request-configuration error
      { message := jsOrElse (some (.str error.message))
          (.str "Error en la configuración de la petición"),
        type := some .client,
        detail := some (.str error.message),
        timestamp := some now }

/-- `isApiError` from src/services/api.config.ts: the runtime check
`error && typeof error === 'object' && 'message' in error && 'type' in error`
specialised to values of the `ApiError` record shape, whose `message` key is
always materialised; presence of the `type` key remains the live check. -/
def isApiError (e : ApiError) : Bool :=
  e.type.isSome

/-- The validation-error literals thrown by src/services/pokemon.service.ts:
an object with a message, `type: 'validation'`, the offending field's name
and a timestamp (and no `status`). -/
def mkValidationError (message fld now : String) : ApiError :=
  { message := .str message,
    type := some .validation,
    field := some (.str fld),
    timestamp := some now }

/-- Projection of a Pokemon record onto the fields the verified operations
inspect: the numeric `id` and the string `name`
(src/types/pokemon.types.ts). -/
structure Pokemon where
  id : Int
  name : String
deriving DecidableEq, Repr

/-- `FAVORITES_STORAGE_KEY` from src/composables/usePokemonFavorites.ts. -/
def FAVORITES_STORAGE_KEY : String := "pokemon-app-favorites"

/-- Browser local storage, modelled at the parsed-JSON level: each key holds
the `JSON.parse` of the stored string, `none` when the key is absent. -/
def Storage : Type := String → Option Json

/-- JSON encoding of a favorite record as produced by `JSON.stringify` on an
object whose verified fields are `id` and `name`. -/
def encodePokemon (p : Pokemon) : Json :=
  .obj [("id", .num p.id), ("name", .str p.name)]

/-- The element validation inside `loadFavoritesFromStorage`
(src/composables/usePokemonFavorites.ts lines 56-60): keep an item only when
it is truthy with a numeric `id` and a string `name`; the kept item is the
parsed object itself, viewed through the `Pokemon` projection. -/
def decodeFavorite (item : Json) : Option Pokemon :=
  if item.truthy then
    match item.get "id", item.get "name" with
    | some (.num i), some (.str s) => some { id := i, name := s }
    | _, _ => none
  else none

/-- `saveFavoritesToStorage` from src/composables/usePokemonFavorites.ts:
stores `JSON.stringify(favoritesToSave)` under the fixed key. -/
def saveFavoritesToStorage (favoritesToSave : List Pokemon) (storage : Storage) : Storage :=
  fun k =>
    if k = FAVORITES_STORAGE_KEY then some (.arr (favoritesToSave.map encodePokemon))
    else storage k

/-- `loadFavoritesFromStorage` from src/composables/usePokemonFavorites.ts:
reads the fixed key, and when the parsed value is an array returns its valid
elements; every other case (absent key, falsy stored string, non-array JSON,
parse failure) yields the empty list. -/
def loadFavoritesFromStorage (storage : Storage) : List Pokemon :=
  match storage FAVORITES_STORAGE_KEY with
  | some (.arr items) => items.filterMap decodeFavorite
  | _ => []

/-- `isFavorite` from src/composables/usePokemonFavorites.ts: membership of
the id in the set of favorite ids. -/
def isFavorite (pokemonId : Int) (favorites : List Pokemon) : Bool :=
  favorites.any fun p => p.id == pokemonId

/-- `addToFavorites` from src/composables/usePokemonFavorites.ts: push the
record only when its id is not already a favorite. -/
def addToFavorites (pokemon : Pokemon) (favorites : List Pokemon) : List Pokemon :=
  if isFavorite pokemon.id favorites then favorites else favorites ++ [pokemon]

/-- `removeFromFavorites` from src/composables/usePokemonFavorites.ts:
splice out the first entry whose id matches (no change when none does). -/
def removeFromFavorites (pokemonId : Int) (favorites : List Pokemon) : List Pokemon :=
  favorites.eraseP fun p => p.id == pokemonId

/-- `toggleFavorite` from src/composables/usePokemonFavorites.ts: returns the
new favorites list together with the boolean the function returns. -/
def toggleFavorite (pokemon : Pokemon) (favorites : List Pokemon) : List Pokemon × Bool :=
  if isFavorite pokemon.id favorites then
    (removeFromFavorites pokemon.id favorites, false)
  else
    (addToFavorites pokemon favorites, true)

/-- One call against the favorites state: the four mutating operations of the
composable. -/
inductive FavOp where
  | add (p : Pokemon)
  | remove (pokemonId : Int)
  | toggle (p : Pokemon)
  | clear
deriving DecidableEq, Repr

/-- Effect of one favorites operation on the favorites list
(`clearFavorites` resets to the empty list). -/
def applyFavOp (favorites : List Pokemon) : FavOp → List Pokemon
  | .add p => addToFavorites p favorites
  | .remove i => removeFromFavorites i favorites
  | .toggle p => (toggleFavorite p favorites).1
  | .clear => []

/-- The favorites list reached from the initial empty list by a call
sequence. -/
def runFavOps (ops : List FavOp) : List Pokemon :=
  ops.foldl applyFavOp []

/-- JavaScript `String.prototype.trim`: drop whitespace from both ends
(defined over the character list so that it is kernel-computable). -/
def jsTrim (s : String) : String :=
  String.mk (((s.toList.dropWhile Char.isWhitespace).reverse.dropWhile
    Char.isWhitespace).reverse)

/-- JavaScript `String.prototype.toLowerCase` (over the character list so
that it is kernel-computable). -/
def jsToLower (s : String) : String :=
  String.mk (s.toList.map Char.toLower)

/-- `DEBOUNCE_DELAY` from src/stores/filter.store.ts. -/
def DEBOUNCE_DELAY : Nat := 300

/-- A pending `setTimeout` scheduled by the search watcher: the captured
query value and the delay the timer was armed with. -/
structure PendingTimer where
  captured : String
  delay : Nat
deriving DecidableEq, Repr

/-- The debouncing part of the filter store's state
(src/stores/filter.store.ts): the raw query, the debounced query, and the
at most one pending timer (`searchDebounceTimer`). -/
structure FilterDebounceState where
  searchQuery : String
  debouncedSearchQuery : String
  pending : Option PendingTimer
deriving DecidableEq, Repr

/-- The `searchQuery` watcher body (src/stores/filter.store.ts lines 62-77):
a write clears any previously pending timer and arms a fresh
`DEBOUNCE_DELAY` timer capturing the new query.  `setSearchQuery` updates
`searchQuery` immediately; the watcher then runs with the new value. -/
def writeSearchQuery (newQuery : String) (s : FilterDebounceState) : FilterDebounceState :=
  { searchQuery := newQuery,
    debouncedSearchQuery := s.debouncedSearchQuery,
    pending := some { captured := newQuery, delay := DEBOUNCE_DELAY } }

/-- The timer callback (src/stores/filter.store.ts lines 71-74): when the
pending timer fires, the debounced query becomes the trimmed captured value.
With no pending timer nothing happens. -/
def fireDebounceTimer (s : FilterDebounceState) : FilterDebounceState :=
  match s.pending with
  | some timer =>
    { searchQuery := s.searchQuery,
      debouncedSearchQuery := jsTrim timer.captured,
      pending := none }
  | none => s

/-- A burst of consecutive writes to the search query, with no timer firing
in between. -/
def applyWrites (writes : List String) (s : FilterDebounceState) : FilterDebounceState :=
  writes.foldl (fun acc q => writeSearchQuery q acc) s

/-- The hardcoded fallback type list of `loadAvailableTypes`
(src/stores/filter.store.ts lines 262-281), substituted when the API call
fails. -/
def fallbackTypes : List String :=
  ["normal", "fire", "water", "electric", "grass", "ice", "fighting", "poison",
   "ground", "flying", "psychic", "bug", "rock", "ghost", "dragon", "dark",
   "steel", "fairy"]

/-- Detail record for a Pokemon type, projected onto the fields the verified
code reads (src/types/pokemon.types.ts). -/
structure NamedAPIResource where
  name : String
  url : String
deriving DecidableEq, Repr

/-- One entry of a type detail's `pokemon` array. -/
structure TypePokemonEntry where
  slot : Int
  pokemon : NamedAPIResource
deriving DecidableEq, Repr

/-- `PokemonTypeDetail`, projected onto the fields the verified code reads. -/
structure PokemonTypeDetail where
  id : Int
  name : String
  pokemon : List TypePokemonEntry
deriving DecidableEq, Repr

/-- The type-loading part of the filter store's state. -/
structure FilterTypesState where
  availableTypes : List String
  isLoadingTypes : Bool
  typesError : Option Json

/-- `loadAvailableTypes` from src/stores/filter.store.ts (lines 229-288) as a
function of the outcome of the `getAllTypes()` call: on success the sorted
type names are stored; on failure the error's `message` is recorded in
`typesError` and the hardcoded `fallbackTypes` list is substituted for
`availableTypes`. -/
def loadAvailableTypes (result : Except ApiError (List PokemonTypeDetail))
    (_s : FilterTypesState) : FilterTypesState :=
  match result with
  | .ok types =>
    { availableTypes := (types.map PokemonTypeDetail.name).mergeSort (fun a b => a ≤ b),
      isLoadingTypes := false,
      typesError := none }
  | .error e =>
    { availableTypes := fallbackTypes,
      isLoadingTypes := false,
      typesError := some e.message }

/-- `setSelectedType` from src/stores/filter.store.ts (lines 173-190): a
non-null type that is absent from a non-empty `availableTypes` list is
rejected (the selection is left unchanged); otherwise the selection is
updated. -/
def setSelectedType (availableTypes : List String) (current : Option String)
    (t : Option String) : Option String :=
  match t with
  | none => none
  | some ty =>
    if availableTypes.length > 0 ∧ ty ∉ availableTypes then current
    else some ty

/-- The pagination-relevant part of the Pokemon store's state
(src/stores/pokemon.store.ts). -/
structure PokemonStoreState where
  totalCount : Int
  currentPage : Int
  itemsPerPage : Int
deriving DecidableEq, Repr

/-- `totalPages` from src/stores/pokemon.store.ts (lines 474-476):
`Math.ceil(totalCount / itemsPerPage)`, i.e. the ceiling of the exact
quotient. -/
def totalPages (s : PokemonStoreState) : Int :=
  ⌈(s.totalCount : ℚ) / (s.itemsPerPage : ℚ)⌉

/-- The record returned by `paginationInfo`. -/
structure PaginationInfo where
  startItem : Int
  endItem : Int
  totalItems : Int
  currentPage : Int
  totalPages : Int
deriving DecidableEq, Repr

/-- `paginationInfo` from src/stores/pokemon.store.ts (lines 515-526). -/
def paginationInfo (s : PokemonStoreState) : PaginationInfo :=
  { startItem := (s.currentPage - 1) * s.itemsPerPage + 1,
    endItem := min (s.currentPage * s.itemsPerPage) s.totalCount,
    totalItems := s.totalCount,
    currentPage := s.currentPage,
    totalPages := totalPages s }

/-- `PokemonListResponse`, projected onto the fields the verified code
reads. -/
structure PokemonListResponse where
  count : Int
  results : List NamedAPIResource
deriving DecidableEq, Repr

/-- `getPokemonList` from src/services/pokemon.service.ts (lines 31-71).
`api limit offset` is the outcome of the axios GET on `/pokemon` with query
parameters `limit` and `offset`; the oracle is consulted only on the
in-range path.  Errors that already satisfy `isApiError` are rethrown
unchanged; anything else is wrapped as an `unknown` error. -/
def getPokemonList (api : Int → Int → Except ApiError PokemonListResponse) (now : String)
    (limit offset : Int) : Except ApiError PokemonListResponse :=
  if limit < 1 ∨ limit > 1000 then
    .error (mkValidationError "El límite debe estar entre 1 y 1000" "limit" now)
  else if offset < 0 then
    .error (mkValidationError "El offset debe ser mayor o igual a 0" "offset" now)
  else
    match api limit offset with
    | .ok response => .ok response
    | .error e =>
      if isApiError e then .error e
      else
        .error { message := .str "Error al obtener la lista de Pokémon",
                 type := some .unknown,
                 detail := some (.str "Error desconocido"),
                 timestamp := some now }

/-- Digit run to number, as `parseInt` does on a digit-only string. -/
def digitsToNat (ds : List Char) : Nat :=
  ds.foldl (fun acc c => acc * 10 + (c.toNat - 48)) 0

/-- `extractIdFromUrl` from src/services/pokemon.service.ts (lines 342-353):
the regex match `/\/(\d+)\/?$/` on the URL — a slash, a digit run and an
optional trailing slash at the end of the string.  `none` models the throw
when the regex does not match. -/
def extractIdFromUrl (url : String) : Option Nat :=
  let rev := url.toList.reverse
  let rev := match rev with
    | '/' :: rest => rest
    | other => other
  let digits := rev.takeWhile Char.isDigit
  match digits, rev.dropWhile Char.isDigit with
  | [], _ => none
  | _, '/' :: _ => some (digitsToNat digits.reverse)
  | _, _ => none

/-- The whitespace-run replacement `replace(/\s+/g, '-')`: every maximal run
of whitespace becomes a single hyphen.  `prevWs` tracks whether the previous
character belonged to a run already replaced. -/
def replaceWsRunsAux (prevWs : Bool) : List Char → List Char
  | [] => []
  | c :: cs =>
    if c.isWhitespace then
      if prevWs then replaceWsRunsAux true cs
      else '-' :: replaceWsRunsAux true cs
    else c :: replaceWsRunsAux false cs

/-- `replace(/\s+/g, '-')` on a character list. -/
def replaceWsRuns (cs : List Char) : List Char :=
  replaceWsRunsAux false cs

/-- First-occurrence deduplication, as `[...new Set(xs)]` produces. -/
def dedupFirst (seen : List String) : List String → List String
  | [] => []
  | x :: xs => if x ∈ seen then dedupFirst seen xs else x :: dedupFirst (x :: seen) xs

/-- `generateNameVariations` from src/services/pokemon.service.ts
(lines 399-418). -/
def generateNameVariations (name : String) : List String :=
  let clean := jsToLower (jsTrim name)
  let v1 := String.mk (clean.toList.filter fun c => (decide ('a' ≤ c) && decide (c ≤ 'z')) || c.isDigit)
  let v2 := String.mk (replaceWsRuns clean.toList)
  let withFirst :=
    if clean.toList.contains ' ' then
      let firstPart := String.mk (clean.toList.takeWhile fun c => c ≠ ' ')
      if firstPart ≠ "" then [v1, v2, firstPart] else [v1, v2]
    else [v1, v2]
  (dedupFirst [] withFirst).filter fun v => v.length > 0

/-- The variation loop inside `searchPokemonByName`: return the first
variation that resolves; a variation that fails is skipped; `none` when the
loop falls through. -/
def tryVariations (byName : String → Except ApiError Pokemon) :
    List String → Option Pokemon
  | [] => none
  | v :: vs =>
    match byName v with
    | .ok p => some p
    | .error _ => tryVariations byName vs

/-- `searchPokemonByName` from src/services/pokemon.service.ts
(lines 370-394).  `byName` is the outcome of `getPokemonByName` on a given
name.  A 404 `ApiError` triggers the automatic variation search and yields
`ok none` when no variation resolves; every other error is rethrown. -/
def searchPokemonByName (byName : String → Except ApiError Pokemon) (name : String) :
    Except ApiError (Option Pokemon) :=
  match byName name with
  | .ok p => .ok (some p)
  | .error e =>
    if isApiError e ∧ e.status = some 404 then
      .ok (tryVariations byName (generateNameVariations name))
    else .error e

/-- `maxPokemon` inside `getPokemonsByType`
(src/services/pokemon.service.ts line 284). -/
def maxPokemonPerType : Nat := 50

/-- `getPokemonsByType` from src/services/pokemon.service.ts
(lines 260-327).  `getType` is the outcome of the GET on `/type/{id}`;
`fetch i` is the outcome of the GET on `/pokemon/{i}`, `none` meaning the
individual request failed (such references are dropped, as is a reference
whose URL the id extraction rejects, since `extractIdFromUrl` throws inside
the per-reference `try`). -/
def getPokemonsByType (getType : Int → Except ApiError PokemonTypeDetail)
    (fetch : Nat → Option Pokemon) (now : String) (typeId : Int) :
    Except ApiError (List Pokemon) :=
  if typeId < 1 then
    .error (mkValidationError "El ID del tipo debe ser un número entero mayor a 0" "typeId" now)
  else
    match getType typeId with
    | .error e =>
      if isApiError e ∧ e.status = some 404 then
        .error { e with
          message := .str ("No se encontró ningún tipo de Pokémon con el ID " ++ toString typeId) }
      else if isApiError e then .error e
      else
        .error { message := .str ("Error al obtener Pokémon del tipo " ++ toString typeId),
                 type := some .unknown,
                 detail := some (.str "Error desconocido"),
                 timestamp := some now }
    | .ok typeDetail =>
      let pokemonRefs := typeDetail.pokemon.map TypePokemonEntry.pokemon
      if pokemonRefs.length = 0 then .ok []
      else
        let limitedRefs := pokemonRefs.take maxPokemonPerType
        let fetched := limitedRefs.filterMap fun r => (extractIdFromUrl r.url).bind fetch
        .ok (fetched.mergeSort fun a b => a.id ≤ b.id)

/-- One entry of a pagination window: either a numbered page button or the
ellipsis marker pushed by the string literal quote-dot-dot-dot-quote. -/
inductive PageItem where
  | page (n : Int)
  | dots
deriving DecidableEq, Repr

/-- The entries pushed by a loop `for (let i = a; i <= b; i++) pages.push(i)`:
the pages `a, a+1, ..., b` in order (empty when `b < a`). -/
def pageRange (a b : Int) : List PageItem :=
  (List.range (b + 1 - a).toNat).map fun k : Nat => .page (a + (k : Int))

/-- The numeric entries of a pagination window, in order, with the ellipsis
markers dropped. -/
def pagesNums (l : List PageItem) : List Int :=
  l.filterMap fun pi => match pi with | .page n => some n | .dots => none

namespace Pagination

/-- `visiblePages` from src/components/Pagination.vue (lines 182-221). -/
def visiblePages (totalPages currentPage : Int) : List PageItem :=
  if totalPages ≤ 7 then
    pageRange 1 totalPages
  else
    [PageItem.page 1] ++
    (if currentPage ≤ 4 then
      pageRange 2 5 ++ [PageItem.dots, PageItem.page totalPages]
    else if currentPage ≥ totalPages - 3 then
      [PageItem.dots] ++ pageRange (totalPages - 4) totalPages
    else
      [PageItem.dots] ++ pageRange (currentPage - 1) (currentPage + 1) ++
        [PageItem.dots, PageItem.page totalPages])

end Pagination

namespace SimplePagination

/-- `visiblePages` from the simple pagination component (the
`maxVisiblePages` variant, default 5). -/
def visiblePages (maxVisible totalPages currentPage : Int) : List PageItem :=
  if totalPages ≤ maxVisible then
    pageRange 1 totalPages
  else
    let halfVisible := maxVisible / 2
    let startPage0 := max 2 (currentPage - halfVisible)
    let endPage0 := min (totalPages - 1) (currentPage + halfVisible)
    let endPage := if currentPage ≤ halfVisible + 1 then min (totalPages - 1) (maxVisible - 1) else endPage0
    let startPage := if currentPage ≥ totalPages - halfVisible then max 2 (totalPages - maxVisible + 2) else startPage0
    [PageItem.page 1] ++
    (if startPage > 2 then [PageItem.dots] else []) ++
    pageRange startPage endPage ++
    (if endPage < totalPages - 1 then [PageItem.dots] else []) ++
    (if totalPages > 1 then [PageItem.page totalPages] else [])

end SimplePagination

/-- The window well-formedness properties claimed for a pagination window:
numeric entries strictly increasing, all within the page range, with the
first page, the last page and the current page present. -/
def windowInvariant (totalPages currentPage : Int) (l : List PageItem) : Prop :=
  (pagesNums l).Pairwise (· < ·) ∧
  (∀ m ∈ pagesNums l, 1 ≤ m ∧ m ≤ totalPages) ∧
  PageItem.page 1 ∈ l ∧ PageItem.page totalPages ∈ l ∧ PageItem.page currentPage ∈ l

/-- Decoding inverts encoding: a favorite record written by
`saveFavoritesToStorage` passes the load-time validation and is returned
unchanged. -/
theorem decodeFavorite_encodePokemon (p : Pokemon) :
    decodeFavorite (encodePokemon p) = some p := rfl

/-- C1: for every list of favorite records (each carrying a numeric id and a
string name), saving with `saveFavoritesToStorage` stores the list's JSON
encoding under the single fixed key `pokemon-app-favorites`, changes no
other key, and `loadFavoritesFromStorage` then returns the same list. -/
theorem c1_save_load_roundtrip (favs : List Pokemon) (storage : Storage) :
    saveFavoritesToStorage favs storage FAVORITES_STORAGE_KEY
        = some (.arr (favs.map encodePokemon)) ∧
    (∀ k, k ≠ FAVORITES_STORAGE_KEY → saveFavoritesToStorage favs storage k = storage k) ∧
    loadFavoritesFromStorage (saveFavoritesToStorage favs storage) = favs := by
  refine ⟨by simp [saveFavoritesToStorage], ?_, ?_⟩
  · intro k hk
    simp [saveFavoritesToStorage, hk]
  · simp only [loadFavoritesFromStorage, saveFavoritesToStorage, if_true]
    rw [List.filterMap_map]
    have h : (decodeFavorite ∘ encodePokemon) = some := by
      funext p
      exact decodeFavorite_encodePokemon p
    rw [h, List.filterMap_some]

/-- Witness for C1 at a concrete list, storage and foreign key. -/
theorem c1_save_load_roundtrip_witness :
    saveFavoritesToStorage [{ id := 25, name := "pikachu" }] (fun _ => none) "pokemon-app-dark-mode"
        = none ∧
    loadFavoritesFromStorage
        (saveFavoritesToStorage [{ id := 25, name := "pikachu" }] (fun _ => none))
        = [{ id := 25, name := "pikachu" }] :=
  ⟨(c1_save_load_roundtrip [{ id := 25, name := "pikachu" }] (fun _ => none)).2.1
      "pokemon-app-dark-mode" (by decide),
   (c1_save_load_roundtrip [{ id := 25, name := "pikachu" }] (fun _ => none)).2.2⟩

/-- Counterexample to C7: the composable and the store do impose additional
constraints.  `addToFavorites` refuses a (distinct) record whose id is
already a favorite — uniqueness of records by id — and `setSelectedType`
refuses a type that is not in the loaded `availableTypes` list — membership
in a whitelist. -/
theorem c7_counterexample :
    addToFavorites { id := 25, name := "raichu" } [{ id := 25, name := "pikachu" }]
        = [{ id := 25, name := "pikachu" }] ∧
    setSelectedType ["fire"] (some "grass") (some "water") = some "grass" := by
  exact ⟨by decide, by decide⟩

/-- C7 as amended: the two constraints the code does enforce, stated
exactly.  `addToFavorites` keeps the list unchanged exactly when the id is
already a favorite (appending otherwise), and `setSelectedType` keeps the
selection unchanged whenever the whitelist is non-empty and does not contain
the requested type (updating it whenever it does contain it). -/
theorem c7_enforced_invariants (favs : List Pokemon) (p : Pokemon)
    (avail : List String) (current : Option String) (t : String) :
    (isFavorite p.id favs = true → addToFavorites p favs = favs) ∧
    (isFavorite p.id favs = false → addToFavorites p favs = favs ++ [p]) ∧
    (avail ≠ [] → t ∉ avail → setSelectedType avail current (some t) = current) ∧
    (t ∈ avail → setSelectedType avail current (some t) = some t) := by
  refine ⟨?_, ?_, ?_, ?_⟩
  · intro h
    simp [addToFavorites, h]
  · intro h
    simp [addToFavorites, h]
  · intro h1 h2
    have hlen : avail.length > 0 := List.length_pos.mpr h1
    simp [setSelectedType, hlen, h2]
  · intro h
    simp [setSelectedType, h]

/-- Witness for C7's amended statement at concrete inputs. -/
theorem c7_enforced_invariants_witness :
    addToFavorites { id := 1, name := "bulbasaur" } [{ id := 1, name := "ivysaur" }]
        = [{ id := 1, name := "ivysaur" }] ∧
    setSelectedType ["water"] none (some "fire") = none :=
  ⟨(c7_enforced_invariants [{ id := 1, name := "ivysaur" }] { id := 1, name := "bulbasaur" }
      ["water"] none "fire").1 (by decide),
   (c7_enforced_invariants [{ id := 1, name := "ivysaur" }] { id := 1, name := "bulbasaur" }
      ["water"] none "fire").2.2.1 (by decide) (by decide)⟩

/-- Being a favorite is membership of the id among the favorites' ids. -/
theorem isFavorite_iff_mem (i : Int) (favs : List Pokemon) :
    isFavorite i favs = true ↔ i ∈ favs.map Pokemon.id := by
  simp [isFavorite, List.any_eq_true, List.mem_map, beq_iff_eq]

/-- `addToFavorites` preserves distinctness of the favorites' ids. -/
theorem nodup_addToFavorites (p : Pokemon) (favs : List Pokemon)
    (h : (favs.map Pokemon.id).Nodup) :
    ((addToFavorites p favs).map Pokemon.id).Nodup := by
  unfold addToFavorites
  by_cases hf : isFavorite p.id favs = true
  · simp [hf, h]
  · have hmem : p.id ∉ favs.map Pokemon.id := fun hm =>
      hf ((isFavorite_iff_mem p.id favs).mpr hm)
    simp only [if_neg hf, List.map_append, List.map_cons, List.map_nil]
    exact List.Nodup.append h (List.nodup_singleton _)
      (by simpa [List.disjoint_singleton] using hmem)

/-- `removeFromFavorites` preserves distinctness of the favorites' ids. -/
theorem nodup_removeFromFavorites (i : Int) (favs : List Pokemon)
    (h : (favs.map Pokemon.id).Nodup) :
    ((removeFromFavorites i favs).map Pokemon.id).Nodup :=
  h.sublist ((List.eraseP_sublist favs).map Pokemon.id)

/-- Every single favorites operation preserves distinctness of ids. -/
theorem nodup_applyFavOp (favs : List Pokemon) (op : FavOp)
    (h : (favs.map Pokemon.id).Nodup) :
    ((applyFavOp favs op).map Pokemon.id).Nodup := by
  cases op with
  | add p => exact nodup_addToFavorites p favs h
  | remove i => exact nodup_removeFromFavorites i favs h
  | toggle p =>
    simp only [applyFavOp, toggleFavorite]
    by_cases hf : isFavorite p.id favs = true
    · simpa [hf] using nodup_removeFromFavorites p.id favs h
    · simpa [hf] using nodup_addToFavorites p favs h
  | clear => simp [applyFavOp]

/-- Distinctness of ids propagates along any call sequence. -/
theorem nodup_foldl_applyFavOp (ops : List FavOp) (favs : List Pokemon)
    (h : (favs.map Pokemon.id).Nodup) :
    (((ops.foldl applyFavOp favs)).map Pokemon.id).Nodup := by
  induction ops generalizing favs with
  | nil => simpa using h
  | cons op ops ih => exact ih (applyFavOp favs op) (nodup_applyFavOp favs op h)

/-- With distinct ids, removing an id leaves no favorite carrying it. -/
theorem isFavorite_removeFromFavorites (i : Int) (favs : List Pokemon)
    (h : (favs.map Pokemon.id).Nodup) :
    isFavorite i (removeFromFavorites i favs) = false := by
  induction favs with
  | nil => rfl
  | cons p ps ih =>
    simp only [List.map_cons, List.nodup_cons] at h
    simp only [removeFromFavorites, List.eraseP_cons] at *
    by_cases hp : p.id = i
    · simp only [hp, beq_self_eq_true, cond_true]
      rw [Bool.eq_false_iff]
      intro hfav
      exact h.1 (hp ▸ (isFavorite_iff_mem i ps).mp hfav)
    · have hbeq : (p.id == i) = false := beq_eq_false_iff_ne.mpr hp
      simp only [hbeq, cond_false, isFavorite, List.any_cons, hbeq, Bool.false_or]
      exact ih h.2

/-- C8: starting from the empty favorites list, every call sequence keeps
the favorites' ids pairwise distinct; `toggleFavorite p` returns `true`
exactly when `p` was not a favorite immediately before the call, and when it
returns `false` the entry with `p`'s id has been removed. -/
theorem c8_favorites_invariant (ops : List FavOp) (p : Pokemon) :
    ((runFavOps ops).map Pokemon.id).Nodup ∧
    ((toggleFavorite p (runFavOps ops)).2 = true ↔
      isFavorite p.id (runFavOps ops) = false) ∧
    (isFavorite p.id (runFavOps ops) = true →
      isFavorite p.id (toggleFavorite p (runFavOps ops)).1 = false) := by
  have hnd : ((runFavOps ops).map Pokemon.id).Nodup :=
    nodup_foldl_applyFavOp ops [] (by simp)
  refine ⟨hnd, ?_, ?_⟩
  · by_cases h : isFavorite p.id (runFavOps ops) = true <;>
      simp [toggleFavorite, h]
  · intro h
    simp only [toggleFavorite, h, if_true]
    exact isFavorite_removeFromFavorites p.id (runFavOps ops) hnd

/-- Witness for C8 at a concrete call sequence. -/
theorem c8_favorites_invariant_witness :
    isFavorite 25 (runFavOps [FavOp.add { id := 25, name := "pikachu" }]) = true ∧
    isFavorite 25 (toggleFavorite { id := 25, name := "pikachu" }
        (runFavOps [FavOp.add { id := 25, name := "pikachu" }])).1 = false :=
  ⟨by decide,
   (c8_favorites_invariant [FavOp.add { id := 25, name := "pikachu" }]
      { id := 25, name := "pikachu" }).2.2 (by decide)⟩

/-- A burst of writes never touches the debounced query. -/
theorem applyWrites_debouncedSearchQuery (writes : List String) (s : FilterDebounceState) :
    (applyWrites writes s).debouncedSearchQuery = s.debouncedSearchQuery := by
  induction writes generalizing s with
  | nil => rfl
  | cons w ws ih =>
    show (applyWrites ws (writeSearchQuery w s)).debouncedSearchQuery = _
    rw [ih (writeSearchQuery w s)]
    rfl

/-- After a non-empty burst of writes the only pending timer is the one armed
by the last write, carrying the last value and the fixed delay. -/
theorem applyWrites_pending (writes : List String) (s : FilterDebounceState)
    (h : writes ≠ []) :
    (applyWrites writes s).pending
        = some { captured := writes.getLast h, delay := DEBOUNCE_DELAY } := by
  induction writes generalizing s with
  | nil => exact absurd rfl h
  | cons w ws ih =>
    cases ws with
    | nil => rfl
    | cons w2 ws2 =>
      show (applyWrites (w2 :: ws2) (writeSearchQuery w s)).pending = _
      rw [ih (writeSearchQuery w s) (by simp)]
      simp [List.getLast_cons]

/-- C3: in any burst of writes to the search query, each write cancels the
previously pending timer (at most the last write's timer is pending, armed
with the fixed 300 ms delay); no intermediate value is ever propagated to
the debounced query; and when the timer finally fires the debounced query
is the trimmed form of the last value written. -/
theorem c3_debounce_last_write_wins (s : FilterDebounceState) (writes : List String)
    (h : writes ≠ []) :
    (applyWrites writes s).debouncedSearchQuery = s.debouncedSearchQuery ∧
    (applyWrites writes s).pending
        = some { captured := writes.getLast h, delay := DEBOUNCE_DELAY } ∧
    DEBOUNCE_DELAY = 300 ∧
    (fireDebounceTimer (applyWrites writes s)).debouncedSearchQuery
        = jsTrim (writes.getLast h) := by
  refine ⟨applyWrites_debouncedSearchQuery writes s, applyWrites_pending writes s h, rfl, ?_⟩
  simp [fireDebounceTimer, applyWrites_pending writes s h]

/-- Witness for C3 at a concrete three-write burst. -/
theorem c3_debounce_last_write_wins_witness :
    (["p", "pi", "pika "] : List String) ≠ [] ∧
    (fireDebounceTimer (applyWrites ["p", "pi", "pika "]
        { searchQuery := "", debouncedSearchQuery := "", pending := none })).debouncedSearchQuery
      = "pika" := by
  refine ⟨by decide, ?_⟩
  rw [(c3_debounce_last_write_wins
      { searchQuery := "", debouncedSearchQuery := "", pending := none }
      ["p", "pi", "pika "] (by decide)).2.2.2]
  decide

/-- C4: with a non-negative total, a positive page size and a current page
of at least 1, `totalPages` is the ceiling of `totalCount / itemsPerPage`
(written in exact integer arithmetic), and `paginationInfo` reports
`startItem = (currentPage - 1) * itemsPerPage + 1` and
`endItem = min (currentPage * itemsPerPage) totalCount`. -/
theorem c4_pagination (s : PokemonStoreState)
    (htc : 0 ≤ s.totalCount) (hipp : 0 < s.itemsPerPage) (hcp : 1 ≤ s.currentPage) :
    totalPages s = (s.totalCount + s.itemsPerPage - 1) / s.itemsPerPage ∧
    (paginationInfo s).startItem = (s.currentPage - 1) * s.itemsPerPage + 1 ∧
    (paginationInfo s).endItem = min (s.currentPage * s.itemsPerPage) s.totalCount := by
  refine ⟨?_, rfl, rfl⟩
  have hq := Int.ediv_add_emod (s.totalCount + s.itemsPerPage - 1) s.itemsPerPage
  have hr0 := Int.emod_nonneg (s.totalCount + s.itemsPerPage - 1)
    (by omega : s.itemsPerPage ≠ 0)
  have hrb := Int.emod_lt_of_pos (s.totalCount + s.itemsPerPage - 1) hipp
  have hb : (0 : ℚ) < (s.itemsPerPage : ℚ) := by exact_mod_cast hipp
  have h1 : ((s.totalCount + s.itemsPerPage - 1) / s.itemsPerPage - 1) * s.itemsPerPage
      < s.totalCount := by nlinarith [hq, hr0, hrb]
  have h2 : s.totalCount
      ≤ ((s.totalCount + s.itemsPerPage - 1) / s.itemsPerPage) * s.itemsPerPage := by
    nlinarith [hq, hr0, hrb]
  rw [totalPages, Int.ceil_eq_iff]
  constructor
  · rw [show ((((s.totalCount + s.itemsPerPage - 1) / s.itemsPerPage : Int) : ℚ) - 1)
        = (((s.totalCount + s.itemsPerPage - 1) / s.itemsPerPage - 1 : Int) : ℚ) by push_cast; ring]
    rw [lt_div_iff hb]
    exact_mod_cast h1
  · rw [div_le_iff hb]
    exact_mod_cast h2

/-- Witness for C4 at a concrete store state. -/
theorem c4_pagination_witness :
    (0 : Int) ≤ 45 ∧ (0 : Int) < 20 ∧ (1 : Int) ≤ 2 ∧
    (totalPages { totalCount := 45, currentPage := 2, itemsPerPage := 20 }
        = (45 + 20 - 1) / 20 ∧
      (paginationInfo { totalCount := 45, currentPage := 2, itemsPerPage := 20 }).startItem
        = (2 - 1) * 20 + 1 ∧
      (paginationInfo { totalCount := 45, currentPage := 2, itemsPerPage := 20 }).endItem
        = min (2 * 20) 45) :=
  ⟨by decide, by decide, by decide,
   c4_pagination { totalCount := 45, currentPage := 2, itemsPerPage := 20 }
     (by decide) (by decide) (by decide)⟩

/-- Counterexample to C2: when the error response body is an object whose
`message` field is a truthy non-string (here the number 42), `createApiError`
passes that value through, so the produced error's `message` is not a
string. -/
theorem c2_counterexample :
    (createApiError
      { response := some { status := 404, statusText := "Not Found",
                           data := .obj [("message", .num 42)] },
        requestPresent := true, message := "" }
      .unknown "2024-01-01T00:00:00.000Z").message = Json.num 42 ∧
    (createApiError
      { response := some { status := 404, statusText := "Not Found",
                           data := .obj [("message", .num 42)] },
        requestPresent := true, message := "" }
      .unknown "2024-01-01T00:00:00.000Z").message.isStr = false :=
  ⟨rfl, rfl⟩

/-- A JavaScript `a || b` chain whose fallback is a string produces a string
as soon as every truthy operand is a string. -/
theorem jsOrElse_str (a : Option Json) (b : Json)
    (h1 : truthyOpt a = true → ∃ s, a = some (.str s))
    (hb : ∃ s, b = .str s) :
    ∃ s, jsOrElse a b = .str s := by
  cases a with
  | none => simpa [jsOrElse] using hb
  | some v =>
    by_cases hv : v.truthy = true
    · obtain ⟨s, hs⟩ := h1 (by simpa [truthyOpt] using hv)
      refine ⟨s, ?_⟩
      simp only [jsOrElse, hv, if_true]
      exact Option.some.inj hs
    · rw [Bool.not_eq_true] at hv
      simpa [jsOrElse, hv] using hb

/-- C2 as amended: every error produced by `createApiError` satisfies
`isApiError`, carries a numeric `status` exactly when an HTTP response was
received, and has a `type` drawn from the claimed set (in fact always
`network`, `server` or `client`); its `message` is a string provided that
any truthy `message` or `detail` field of an object error-response body is
itself a string (the counterexample shows the non-string leak otherwise).
The validation errors thrown by the service layer also satisfy `isApiError`,
have type `'validation'` and carry no `status`. -/
theorem c2_api_error_shape (e : AxiosErrorModel) (t : ApiErrorType) (now : String)
    (hdata : ∀ r, e.response = some r →
      (truthyOpt (r.data.get "message") = true →
        ∃ s, r.data.get "message" = some (.str s)) ∧
      (truthyOpt (r.data.get "detail") = true →
        ∃ s, r.data.get "detail" = some (.str s))) :
    isApiError (createApiError e t now) = true ∧
    ((createApiError e t now).status.isSome ↔ e.response.isSome) ∧
    ((createApiError e t now).type = some .network ∨
      (createApiError e t now).type = some .server ∨
      (createApiError e t now).type = some .client) ∧
    (∃ s, (createApiError e t now).message = Json.str s) ∧
    (∀ msg fld, isApiError (mkValidationError msg fld now) = true ∧
      (mkValidationError msg fld now).status = none ∧
      (mkValidationError msg fld now).type = some .validation) := by
  have hval : ∀ msg fld, isApiError (mkValidationError msg fld now) = true ∧
      (mkValidationError msg fld now).status = none ∧
      (mkValidationError msg fld now).type = some .validation :=
    fun _ _ => ⟨rfl, rfl, rfl⟩
  cases he : e.response with
  | none =>
    cases hreq : e.requestPresent with
    | true =>
      refine ⟨?_, ?_, ?_, ?_, hval⟩
      · simp [createApiError, he, hreq, isApiError]
      · simp [createApiError, he, hreq]
      · simp [createApiError, he, hreq]
      · exact ⟨"Error de conexión. Verifique su conexión a internet.",
          by simp [createApiError, he, hreq]⟩
    | false =>
      refine ⟨?_, ?_, ?_, ?_, hval⟩
      · simp [createApiError, he, hreq, isApiError]
      · simp [createApiError, he, hreq]
      · simp [createApiError, he, hreq]
      · have hstr : ∃ s, jsOrElse (some (.str e.message))
            (.str "Error en la configuración de la petición") = .str s := by
          by_cases hm : (Json.str e.message).truthy = true
          · exact ⟨e.message, by simp [jsOrElse, hm]⟩
          · rw [Bool.not_eq_true] at hm
            exact ⟨"Error en la configuración de la petición",
              by simp [jsOrElse, hm]⟩
        simpa [createApiError, he, hreq] using hstr
  | some r =>
    by_cases hc : (r.data.truthy = true ∧ r.data.typeofIsObject = true)
    · refine ⟨?_, ?_, ?_, ?_, hval⟩
      · simp [createApiError, he, hc, isApiError]
      · simp [createApiError, he, hc]
      · by_cases hs : r.status ≥ 500 <;>
          simp [createApiError, he, hc, hs]
      · have hstr := jsOrElse_str (r.data.get "message")
          (jsOrElse (r.data.get "detail") (.str (getStatusMessage r.status)))
          (hdata r he).1
          (jsOrElse_str (r.data.get "detail") (.str (getStatusMessage r.status))
            (hdata r he).2 ⟨getStatusMessage r.status, rfl⟩)
        simpa [createApiError, he, hc] using hstr
    · refine ⟨?_, ?_, ?_, ?_, hval⟩
      · simp [createApiError, he, hc, isApiError]
      · simp [createApiError, he, hc]
      · by_cases hs : r.status ≥ 500 <;>
          simp [createApiError, he, hc, hs]
      · exact ⟨getStatusMessage r.status, by simp [createApiError, he, hc]⟩

/-- Witness for C2's amended statement at a concrete network-level error. -/
theorem c2_api_error_shape_witness :
    isApiError (createApiError
      { response := some { status := 503, statusText := "Service Unavailable",
                           data := Json.null } }
      ApiErrorType.unknown "2024-01-01T00:00:00.000Z") = true ∧
    (∃ s, (createApiError
      { response := some { status := 503, statusText := "Service Unavailable",
                           data := Json.null } }
      ApiErrorType.unknown "2024-01-01T00:00:00.000Z").message = Json.str s) := by
  have h := c2_api_error_shape
    { response := some { status := 503, statusText := "Service Unavailable",
                         data := Json.null } }
    ApiErrorType.unknown "2024-01-01T00:00:00.000Z"
    (by
      intro r hr
      injection hr with hr'
      subst hr'
      exact ⟨fun hfalse => by simp [Json.get, truthyOpt] at hfalse,
             fun hfalse => by simp [Json.get, truthyOpt] at hfalse⟩)
  exact ⟨h.1, h.2.2.2.1⟩

/-- The axios interceptors never produce a validation-type error: every
branch of `createApiError` assigns `network`, `server` or `client`. -/
theorem createApiError_type_ne_validation (e : AxiosErrorModel) (t : ApiErrorType)
    (now : String) :
    (createApiError e t now).type ≠ some ApiErrorType.validation := by
  cases he : e.response with
  | none =>
    cases hreq : e.requestPresent <;> simp [createApiError, he, hreq]
  | some r =>
    by_cases hc : (r.data.truthy = true ∧ r.data.typeofIsObject = true) <;>
      by_cases hs : r.status ≥ 500 <;>
        simp [createApiError, he, hc, hs]

/-- C6: `getPokemonList` rejects with a validation `ApiError` naming the
offending field exactly when `limit < 1`, `limit > 1000` or `offset < 0`
(the `limit` check firing first); on every in-range input it issues the list
request with exactly those `limit` and `offset` parameters and returns the
response body.  The hypothesis `hapi` records that the HTTP layer itself
never produces validation-type errors (`createApiError_type_ne_validation`). -/
theorem c6_get_pokemon_list (api : Int → Int → Except ApiError PokemonListResponse)
    (now : String) (limit offset : Int)
    (hapi : ∀ e, api limit offset = .error e → e.type ≠ some ApiErrorType.validation) :
    ((∃ e, getPokemonList api now limit offset = .error e ∧
        e.type = some ApiErrorType.validation) ↔
      (limit < 1 ∨ limit > 1000 ∨ offset < 0)) ∧
    (limit < 1 ∨ limit > 1000 →
      getPokemonList api now limit offset
        = .error (mkValidationError "El límite debe estar entre 1 y 1000" "limit" now)) ∧
    (1 ≤ limit → limit ≤ 1000 → offset < 0 →
      getPokemonList api now limit offset
        = .error (mkValidationError "El offset debe ser mayor o igual a 0" "offset" now)) ∧
    (1 ≤ limit → limit ≤ 1000 → 0 ≤ offset →
      ∀ r, api limit offset = .ok r → getPokemonList api now limit offset = .ok r) := by
  by_cases h1 : limit < 1 ∨ limit > 1000
  · refine ⟨⟨fun _ => ?_, fun _ => ?_⟩, fun _ => by simp [getPokemonList, h1], ?_, ?_⟩
    · rcases h1 with h | h
      · exact Or.inl h
      · exact Or.inr (Or.inl h)
    · exact ⟨mkValidationError "El límite debe estar entre 1 y 1000" "limit" now,
        by simp [getPokemonList, h1], rfl⟩
    · intro hl hr _
      omega
    · intro hl hr _ r _
      omega
  · by_cases h2 : offset < 0
    · refine ⟨⟨fun _ => Or.inr (Or.inr h2), fun _ => ?_⟩, fun h => absurd h h1, ?_, ?_⟩
      · exact ⟨mkValidationError "El offset debe ser mayor o igual a 0" "offset" now,
          by simp [getPokemonList, h1, h2], rfl⟩
      · intro _ _ _
        simp [getPokemonList, h1, h2]
      · intro _ _ ho _ _
        omega
    · refine ⟨⟨?_, ?_⟩, fun h => absurd h h1, fun _ _ ho => absurd ho h2, ?_⟩
      · rintro ⟨e, he, ht⟩
        exfalso
        cases hr : api limit offset with
        | ok r => simp [getPokemonList, h1, h2, hr] at he
        | error e0 =>
          by_cases hae : isApiError e0 = true
          · have : e0 = e := by
              have := he
              simp [getPokemonList, h1, h2, hr, hae] at this
              exact this
            exact hapi e0 hr (this ▸ ht)
          · have : e.type = some ApiErrorType.unknown := by
              have := he
              simp [getPokemonList, h1, h2, hr, hae] at this
              rw [← this]
            rw [this] at ht
            exact ApiErrorType.noConfusion (Option.some.inj ht)
      · intro h
        rcases h with h | h | h <;> omega
      · intro _ _ _ r hr
        simp [getPokemonList, h1, h2, hr]

/-- Witness for C6 at a concrete in-range request. -/
theorem c6_get_pokemon_list_witness :
    getPokemonList (fun _ _ => .ok { count := 1302, results := [] }) "2024" 20 0
      = .ok { count := 1302, results := [] } :=
  (c6_get_pokemon_list (fun _ _ => .ok { count := 1302, results := [] }) "2024" 20 0
    (fun _ h => absurd h (by simp))).2.2.2
    (by decide) (by decide) (by decide) { count := 1302, results := [] } rfl

/-- Counterexample to C5: a 404 from the name lookup is not surfaced to the
caller at all — `searchPokemonByName` silently retries generated name
variations and then substitutes `null` — and a failure of the type listing
is answered by substituting the hardcoded fallback type list instead of only
surfacing the error. -/
theorem c5_counterexample :
    searchPokemonByName
      (fun _ => .error { message := .str "Recurso no encontrado.",
                         status := some 404, type := some .client })
      "pikachu" = .ok none ∧
    (loadAvailableTypes
      (.error { message := .str "Recurso no encontrado.",
                status := some 404, type := some .client })
      { availableTypes := [], isLoadingTypes := true, typesError := none }).availableTypes
      = fallbackTypes ∧
    fallbackTypes ≠ [] :=
  ⟨rfl, rfl, by decide⟩

/-- C5 as amended: there is no backoff-style re-issuing of a failed request,
and a non-404 failure of the name search is surfaced to the caller exactly
once, unchanged; but on a 404 `searchPokemonByName` automatically queries
generated name variations, returning the first hit or `null`; and a failed
type listing makes `loadAvailableTypes` record the error message and
substitute the hardcoded 18-entry fallback type list. -/
theorem c5_failure_handling (byName : String → Except ApiError Pokemon)
    (name : String) (e : ApiError)
    (result : Except ApiError (List PokemonTypeDetail)) (e2 : ApiError)
    (s : FilterTypesState) :
    (byName name = .error e → ¬(isApiError e = true ∧ e.status = some 404) →
      searchPokemonByName byName name = .error e) ∧
    (byName name = .error e → isApiError e = true → e.status = some 404 →
      searchPokemonByName byName name
        = .ok (tryVariations byName (generateNameVariations name))) ∧
    (result = .error e2 →
      (loadAvailableTypes result s).availableTypes = fallbackTypes ∧
      (loadAvailableTypes result s).typesError = some e2.message ∧
      fallbackTypes.length = 18) := by
  refine ⟨?_, ?_, ?_⟩
  · intro hb hno
    simp [searchPokemonByName, hb, hno]
  · intro hb hae h404
    simp [searchPokemonByName, hb, hae, h404]
  · intro hr
    subst hr
    exact ⟨rfl, rfl, by decide⟩

/-- Witness for C5's amended statement at a concrete non-404 failure and a
concrete failed type listing. -/
theorem c5_failure_handling_witness :
    searchPokemonByName
      (fun _ => .error { message := .str "Error de conexión.", type := some .network })
      "pikachu"
      = .error { message := .str "Error de conexión.", type := some .network } ∧
    (loadAvailableTypes
      (.error { message := .str "Error de conexión.", type := some .network })
      { availableTypes := [], isLoadingTypes := true, typesError := none }).availableTypes
      = fallbackTypes := by
  have h := c5_failure_handling
    (fun _ => .error { message := .str "Error de conexión.", type := some .network })
    "pikachu"
    { message := .str "Error de conexión.", type := some .network }
    (.error { message := .str "Error de conexión.", type := some .network })
    { message := .str "Error de conexión.", type := some .network }
    { availableTypes := [], isLoadingTypes := true, typesError := none }
  exact ⟨h.1 rfl (by intro hc; exact Option.noConfusion hc.2), (h.2.2 rfl).1⟩

/-- The duplicated type listing used in the C10 counterexample: the same
Pokemon reference appears twice. -/
def dupTypeDetail : PokemonTypeDetail :=
  { id := 3,
    name := "water",
    pokemon := [
      { slot := 1,
        pokemon := { name := "squirtle", url := "https://pokeapi.co/api/v2/pokemon/7/" } },
      { slot := 2,
        pokemon := { name := "squirtle", url := "https://pokeapi.co/api/v2/pokemon/7/" } }] }

/-- Counterexample to C10: when the type listing repeats a reference, the
two successful fetches of the same Pokemon both survive, so the result is
not strictly ascending in id (7 is not < 7). -/
theorem c10_counterexample :
    getPokemonsByType (fun _ => .ok dupTypeDetail)
      (fun i => if i = 7 then some { id := 7, name := "squirtle" } else none)
      "2024-01-01T00:00:00.000Z" 3
      = .ok [{ id := 7, name := "squirtle" }, { id := 7, name := "squirtle" }] ∧
    ¬ List.Pairwise (fun a b : Pokemon => a.id < b.id)
        [{ id := 7, name := "squirtle" }, { id := 7, name := "squirtle" }] := by
  constructor
  · have h : getPokemonsByType (fun _ => .ok dupTypeDetail)
        (fun i => if i = 7 then some { id := 7, name := "squirtle" } else none)
        "2024-01-01T00:00:00.000Z" 3
        = .ok (List.mergeSort
            [{ id := 7, name := "squirtle" }, { id := 7, name := "squirtle" }]
            fun a b : Pokemon => a.id ≤ b.id) := rfl
    rw [h, List.mergeSort_of_sorted (by decide)]
  · decide

/-- C10 as amended: for a valid type id with a successful type lookup,
`getPokemonsByType` returns exactly the remaining Pokemon — a permutation of
the successful fetches of the first 50 references listed for the type, with
references whose fetch or id extraction fails contributing nothing — as a
list of at most 50 entries sorted in non-decreasing (ascending, but not
necessarily strict — see the counterexample) order of id. -/
theorem c10_pokemons_by_type (getType : Int → Except ApiError PokemonTypeDetail)
    (fetch : Nat → Option Pokemon) (now : String) (typeId : Int) (td : PokemonTypeDetail)
    (h1 : 1 ≤ typeId) (h2 : getType typeId = .ok td) :
    ∃ l, getPokemonsByType getType fetch now typeId = .ok l ∧
      l.Perm (((td.pokemon.map TypePokemonEntry.pokemon).take maxPokemonPerType).filterMap
        (fun r => (extractIdFromUrl r.url).bind fetch)) ∧
      l.length ≤ maxPokemonPerType ∧
      l.Pairwise (fun a b => a.id ≤ b.id) ∧
      (∀ q ∈ l, ∃ r ∈ (td.pokemon.map TypePokemonEntry.pokemon).take maxPokemonPerType,
        (extractIdFromUrl r.url).bind fetch = some q) := by
  have hlt : ¬ typeId < 1 := by omega
  by_cases h0 : (td.pokemon.map TypePokemonEntry.pokemon).length = 0
  · have hnil : td.pokemon.map TypePokemonEntry.pokemon = [] :=
      List.eq_nil_of_length_eq_zero h0
    refine ⟨[], ?_, by simp [hnil], by simp, by simp, by simp⟩
    simp [getPokemonsByType, hlt, h2, h0]
  · refine ⟨(((td.pokemon.map TypePokemonEntry.pokemon).take maxPokemonPerType).filterMap
        (fun r => (extractIdFromUrl r.url).bind fetch)).mergeSort
        (fun a b : Pokemon => a.id ≤ b.id), ?_, List.mergeSort_perm _ _, ?_, ?_, ?_⟩
    · simp [getPokemonsByType, hlt, h2, h0]
      intro hnil
      exact absurd (by simp [hnil]) h0
    · rw [List.length_mergeSort]
      exact le_trans (List.length_filterMap_le _ _) (List.length_take_le _ _)
    · have htrans : ∀ a b c : Pokemon, decide (a.id ≤ b.id) = true →
          decide (b.id ≤ c.id) = true → decide (a.id ≤ c.id) = true := by
        intro a b c hab hbc
        simp only [decide_eq_true_eq] at hab hbc ⊢
        omega
      have htotal : ∀ a b : Pokemon,
          (decide (a.id ≤ b.id) || decide (b.id ≤ a.id)) = true := by
        intro a b
        simp only [Bool.or_eq_true, decide_eq_true_eq]
        omega
      have hs := List.sorted_mergeSort htrans htotal
        (((td.pokemon.map TypePokemonEntry.pokemon).take maxPokemonPerType).filterMap
          (fun r => (extractIdFromUrl r.url).bind fetch))
      exact hs.imp (fun h => by simpa using h)
    · intro q hq
      rw [List.mem_mergeSort] at hq
      exact List.mem_filterMap.mp hq

/-- Witness for C10's amended statement at a concrete type listing. -/
theorem c10_pokemons_by_type_witness :
    (1 : Int) ≤ 3 ∧
    ∃ l, getPokemonsByType (fun _ => .ok dupTypeDetail)
        (fun i => if i = 7 then some { id := 7, name := "squirtle" } else none)
        "2024-01-01T00:00:00.000Z" 3 = .ok l ∧
      l.Perm (((dupTypeDetail.pokemon.map TypePokemonEntry.pokemon).take
          maxPokemonPerType).filterMap
        (fun r => (extractIdFromUrl r.url).bind
          (fun i => if i = 7 then some { id := 7, name := "squirtle" } else none))) ∧
      l.length ≤ maxPokemonPerType ∧
      l.Pairwise (fun a b => a.id ≤ b.id) ∧
      (∀ q ∈ l,
        ∃ r ∈ (dupTypeDetail.pokemon.map TypePokemonEntry.pokemon).take maxPokemonPerType,
          (extractIdFromUrl r.url).bind
            (fun i => if i = 7 then some { id := 7, name := "squirtle" } else none)
            = some q) :=
  ⟨by decide,
   c10_pokemons_by_type (fun _ => .ok dupTypeDetail)
     (fun i => if i = 7 then some { id := 7, name := "squirtle" } else none)
     "2024-01-01T00:00:00.000Z" 3 dupTypeDetail (by decide) rfl⟩

/-- The numeric entries of a window concatenation are the concatenated
numeric entries. -/
theorem pagesNums_append (l1 l2 : List PageItem) :
    pagesNums (l1 ++ l2) = pagesNums l1 ++ pagesNums l2 :=
  List.filterMap_append l1 l2 _

/-- The numeric entries of a page run `a..b`. -/
theorem pagesNums_pageRange (a b : Int) :
    pagesNums (pageRange a b)
      = (List.range (b + 1 - a).toNat).map (fun k : Nat => a + (k : Int)) := by
  unfold pagesNums pageRange
  rw [List.filterMap_map]
  rw [show ((fun pi => match pi with | PageItem.page n => some n | PageItem.dots => none)
        ∘ (fun k : Nat => PageItem.page (a + (k : Int))))
      = some ∘ (fun k : Nat => a + (k : Int)) from rfl]
  exact List.filterMap_eq_map _ ▸ rfl

/-- Membership of the numeric entries of a page run. -/
theorem mem_pagesNums_pageRange {a b m : Int} :
    m ∈ pagesNums (pageRange a b) ↔ a ≤ m ∧ m ≤ b := by
  rw [pagesNums_pageRange]
  simp only [List.mem_map, List.mem_range]
  constructor
  · rintro ⟨k, hk, rfl⟩
    omega
  · intro h
    exact ⟨(m - a).toNat, by omega, by omega⟩

/-- The numeric entries of a page run are strictly increasing. -/
theorem pairwise_pagesNums_pageRange (a b : Int) :
    (pagesNums (pageRange a b)).Pairwise (· < ·) := by
  rw [pagesNums_pageRange]
  exact (List.pairwise_lt_range _).map _ (fun x y hxy => by omega)

/-- Membership of a page button in a page run. -/
theorem page_mem_pageRange {a b m : Int} :
    PageItem.page m ∈ pageRange a b ↔ a ≤ m ∧ m ≤ b := by
  unfold pageRange
  simp only [List.mem_map, List.mem_range, PageItem.page.injEq]
  constructor
  · rintro ⟨k, hk, hm⟩
    omega
  · intro h
    exact ⟨(m - a).toNat, by omega, by omega⟩

/-- A page run holds no ellipsis marker. -/
theorem dots_not_mem_pageRange (a b : Int) : PageItem.dots ∉ pageRange a b := by
  unfold pageRange
  simp

/-- The all-pages window `1..totalPages` is well-formed. -/
theorem windowInvariant_full (total current : Int) (h1 : 1 ≤ total) (h2 : 1 ≤ current)
    (h3 : current ≤ total) : windowInvariant total current (pageRange 1 total) := by
  refine ⟨pairwise_pagesNums_pageRange 1 total, ?_, ?_, ?_, ?_⟩
  · intro m hm
    exact mem_pagesNums_pageRange.mp hm
  · exact page_mem_pageRange.mpr ⟨le_refl 1, h1⟩
  · exact page_mem_pageRange.mpr ⟨h1, le_refl total⟩
  · exact page_mem_pageRange.mpr ⟨h2, h3⟩

/-- The numeric entries of a singleton page button. -/
theorem pagesNums_singleton_page (n : Int) : pagesNums [PageItem.page n] = [n] := rfl

/-- A window of the shape `1, [...], lo..hi, [...], totalPages` (each
bracket an optional ellipsis) is well-formed whenever the middle run stays
strictly between the two endpoint pages and covers the current page unless
that page is an endpoint. -/
theorem windowInvariant_mid (total current lo hi : Int) (d1 d2 : List PageItem)
    (hd1 : d1 = [] ∨ d1 = [PageItem.dots]) (hd2 : d2 = [] ∨ d2 = [PageItem.dots])
    (hlo : 2 ≤ lo) (hhi : hi ≤ total - 1) (hlohi : lo ≤ hi)
    (hc : current = 1 ∨ current = total ∨ (lo ≤ current ∧ current ≤ hi)) :
    windowInvariant total current
      ([PageItem.page 1] ++ d1 ++ pageRange lo hi ++ d2 ++ [PageItem.page total]) := by
  have hn1 : pagesNums d1 = [] := by
    rcases hd1 with h | h <;> subst h <;> rfl
  have hn2 : pagesNums d2 = [] := by
    rcases hd2 with h | h <;> subst h <;> rfl
  have hnums : pagesNums
        ([PageItem.page 1] ++ d1 ++ pageRange lo hi ++ d2 ++ [PageItem.page total])
      = 1 :: (pagesNums (pageRange lo hi) ++ [total]) := by
    simp only [pagesNums_append, hn1, hn2, pagesNums_singleton_page,
      List.append_nil, List.nil_append]
    simp
  refine ⟨?_, ?_, ?_, ?_, ?_⟩
  · rw [hnums, List.pairwise_cons]
    constructor
    · intro m hm
      rcases List.mem_append.mp hm with hm | hm
      · have := mem_pagesNums_pageRange.mp hm
        omega
      · have : m = total := by simpa using hm
        omega
    · rw [List.pairwise_append]
      refine ⟨pairwise_pagesNums_pageRange lo hi, by simp, ?_⟩
      intro x hx y hy
      have hy' : y = total := by simpa using hy
      have := mem_pagesNums_pageRange.mp hx
      omega
  · intro m hm
    rw [hnums] at hm
    rcases List.mem_cons.mp hm with rfl | hm
    · omega
    · rcases List.mem_append.mp hm with hm | hm
      · have := mem_pagesNums_pageRange.mp hm
        omega
      · have : m = total := by simpa using hm
        omega
  · simp
  · simp [List.mem_append]
  · rcases hc with rfl | rfl | ⟨hc1, hc2⟩
    · simp
    · simp [List.mem_append]
    · have hmem : PageItem.page current ∈ pageRange lo hi :=
        page_mem_pageRange.mpr ⟨hc1, hc2⟩
      simp [List.mem_append, hmem]

/-- A window of the shape `1, ..., lo..totalPages` is well-formed whenever
the trailing run starts past page 1 and covers the current page unless it
is page 1. -/
theorem windowInvariant_tail (total current lo : Int)
    (hlo : 2 ≤ lo) (hhi : lo ≤ total)
    (hc : current = 1 ∨ (lo ≤ current ∧ current ≤ total)) :
    windowInvariant total current
      ([PageItem.page 1] ++ [PageItem.dots] ++ pageRange lo total) := by
  have hnums : pagesNums ([PageItem.page 1] ++ [PageItem.dots] ++ pageRange lo total)
      = 1 :: pagesNums (pageRange lo total) := by
    simp only [pagesNums_append, pagesNums_singleton_page]
    simp [pagesNums]
  refine ⟨?_, ?_, ?_, ?_, ?_⟩
  · rw [hnums, List.pairwise_cons]
    refine ⟨?_, pairwise_pagesNums_pageRange lo total⟩
    intro m hm
    have := mem_pagesNums_pageRange.mp hm
    omega
  · intro m hm
    rw [hnums] at hm
    rcases List.mem_cons.mp hm with rfl | hm
    · omega
    · have := mem_pagesNums_pageRange.mp hm
      omega
  · simp
  · have hmem : PageItem.page total ∈ pageRange lo total :=
      page_mem_pageRange.mpr ⟨hhi, le_refl total⟩
    simp [List.mem_append, hmem]
  · rcases hc with rfl | ⟨hc1, hc2⟩
    · simp
    · have hmem : PageItem.page current ∈ pageRange lo total :=
        page_mem_pageRange.mpr ⟨hc1, hc2⟩
      simp [List.mem_append, hmem]

/-- Shape of the Pagination.vue window near the start (current ≤ 4). -/
theorem visiblePagesA_low (total current : Int) (h8 : 8 ≤ total) (hc : current ≤ 4) :
    Pagination.visiblePages total current
      = [PageItem.page 1] ++ [] ++ pageRange 2 5 ++ [PageItem.dots]
          ++ [PageItem.page total] := by
  unfold Pagination.visiblePages
  rw [if_neg (by omega : ¬ total ≤ 7), if_pos hc]
  simp

/-- Shape of the Pagination.vue window near the end (current ≥ total - 3). -/
theorem visiblePagesA_high (total current : Int) (h8 : 8 ≤ total)
    (hc1 : ¬ current ≤ 4) (hc2 : current ≥ total - 3) :
    Pagination.visiblePages total current
      = [PageItem.page 1] ++ [PageItem.dots] ++ pageRange (total - 4) total := by
  unfold Pagination.visiblePages
  rw [if_neg (by omega : ¬ total ≤ 7), if_neg hc1, if_pos hc2]
  simp

/-- Shape of the Pagination.vue window in the middle. -/
theorem visiblePagesA_mid (total current : Int) (h8 : 8 ≤ total)
    (hc1 : ¬ current ≤ 4) (hc2 : ¬ current ≥ total - 3) :
    Pagination.visiblePages total current
      = [PageItem.page 1] ++ [PageItem.dots] ++ pageRange (current - 1) (current + 1)
          ++ [PageItem.dots] ++ [PageItem.page total] := by
  unfold Pagination.visiblePages
  rw [if_neg (by omega : ¬ total ≤ 7), if_neg hc1, if_neg hc2]
  simp

/-- Shape of the simple-pagination window (default maxVisiblePages 5) near
the start (current ≤ 3). -/
theorem visiblePagesB_low (total current : Int) (h6 : 6 ≤ total) (h1 : 1 ≤ current)
    (hc : current ≤ 3) :
    SimplePagination.visiblePages 5 total current
      = [PageItem.page 1] ++ [] ++ pageRange 2 4 ++ [PageItem.dots]
          ++ [PageItem.page total] := by
  simp only [SimplePagination.visiblePages]
  rw [if_neg (by omega : ¬ total ≤ 5)]
  rw [show ((5 : Int) / 2) = 2 from by decide]
  rw [if_neg (by omega : ¬ current ≥ total - 2), if_pos (by omega : current ≤ 2 + 1)]
  rw [show ((2 : Int) ⊔ (current - 2)) = 2 from by omega]
  rw [show (((total : Int) - 1) ⊓ (5 - 1)) = 4 from by omega]
  rw [if_neg (by omega : ¬ (2 : Int) > 2)]
  rw [if_pos (by omega : (4 : Int) < total - 1)]
  rw [if_pos (by omega : total > 1)]

/-- Shape of the simple-pagination window near the end
(current ≥ total - 2). -/
theorem visiblePagesB_high (total current : Int) (h6 : 6 ≤ total)
    (hc1 : ¬ current ≤ 3) (hc2 : current ≥ total - 2) :
    SimplePagination.visiblePages 5 total current
      = [PageItem.page 1] ++ [PageItem.dots] ++ pageRange (total - 3) (total - 1)
          ++ [] ++ [PageItem.page total] := by
  simp only [SimplePagination.visiblePages]
  rw [if_neg (by omega : ¬ total ≤ 5)]
  rw [show ((5 : Int) / 2) = 2 from by decide]
  rw [if_pos hc2, if_neg (by omega : ¬ current ≤ 2 + 1)]
  rw [show ((2 : Int) ⊔ (total - 5 + 2)) = total - 3 from by omega]
  rw [show (((total : Int) - 1) ⊓ (current + 2)) = total - 1 from by omega]
  rw [if_pos (by omega : total - 3 > 2)]
  rw [if_neg (by omega : ¬ total - 1 < total - 1)]
  rw [if_pos (by omega : total > 1)]

/-- Shape of the simple-pagination window in the middle. -/
theorem visiblePagesB_mid (total current : Int) (h6 : 6 ≤ total)
    (hc1 : ¬ current ≤ 3) (hc2 : ¬ current ≥ total - 2) :
    SimplePagination.visiblePages 5 total current
      = [PageItem.page 1] ++ (if current - 2 > 2 then [PageItem.dots] else [])
          ++ pageRange (current - 2) (current + 2)
          ++ (if current + 2 < total - 1 then [PageItem.dots] else [])
          ++ [PageItem.page total] := by
  simp only [SimplePagination.visiblePages]
  rw [if_neg (by omega : ¬ total ≤ 5)]
  rw [show ((5 : Int) / 2) = 2 from by decide]
  rw [if_neg hc2, if_neg (by omega : ¬ current ≤ 2 + 1)]
  rw [show ((2 : Int) ⊔ (current - 2)) = current - 2 from by omega]
  rw [show (((total : Int) - 1) ⊓ (current + 2)) = current + 2 from by omega]
  rw [if_pos (by omega : total > 1)]

/-- C9: for every totalPages ≥ 1 and 1 ≤ currentPage ≤ totalPages, both
visible-pages computations produce a window whose numeric entries are
strictly increasing and lie within [1, totalPages], which always contains
page 1, the last page and the current page; and whenever totalPages does not
exceed the component's threshold (7, respectively the default
maxVisiblePages 5) the window lists every page with no ellipsis markers. -/
theorem c9_visible_pages_window (total current : Int)
    (h1 : 1 ≤ total) (h2 : 1 ≤ current) (h3 : current ≤ total) :
    windowInvariant total current (Pagination.visiblePages total current) ∧
    windowInvariant total current (SimplePagination.visiblePages 5 total current) ∧
    (total ≤ 7 →
      (∀ k, 1 ≤ k → k ≤ total → PageItem.page k ∈ Pagination.visiblePages total current) ∧
      PageItem.dots ∉ Pagination.visiblePages total current) ∧
    (total ≤ 5 →
      (∀ k, 1 ≤ k → k ≤ total →
        PageItem.page k ∈ SimplePagination.visiblePages 5 total current) ∧
      PageItem.dots ∉ SimplePagination.visiblePages 5 total current) := by
  have hA7 : total ≤ 7 → Pagination.visiblePages total current = pageRange 1 total := by
    intro h
    unfold Pagination.visiblePages
    rw [if_pos h]
  have hB5 : total ≤ 5 →
      SimplePagination.visiblePages 5 total current = pageRange 1 total := by
    intro h
    simp only [SimplePagination.visiblePages]
    rw [if_pos h]
  refine ⟨?_, ?_, ?_, ?_⟩
  · by_cases hA : total ≤ 7
    · rw [hA7 hA]
      exact windowInvariant_full total current h1 h2 h3
    · by_cases hc1 : current ≤ 4
      · rw [visiblePagesA_low total current (by omega) hc1]
        exact windowInvariant_mid total current 2 5 [] [PageItem.dots]
          (Or.inl rfl) (Or.inr rfl) (by omega) (by omega) (by omega) (by omega)
      · by_cases hc2 : current ≥ total - 3
        · rw [visiblePagesA_high total current (by omega) hc1 hc2]
          exact windowInvariant_tail total current (total - 4)
            (by omega) (by omega) (by omega)
        · rw [visiblePagesA_mid total current (by omega) hc1 hc2]
          exact windowInvariant_mid total current (current - 1) (current + 1)
            [PageItem.dots] [PageItem.dots] (Or.inr rfl) (Or.inr rfl)
            (by omega) (by omega) (by omega) (by omega)
  · by_cases hB : total ≤ 5
    · rw [hB5 hB]
      exact windowInvariant_full total current h1 h2 h3
    · by_cases hc1 : current ≤ 3
      · rw [visiblePagesB_low total current (by omega) h2 hc1]
        exact windowInvariant_mid total current 2 4 [] [PageItem.dots]
          (Or.inl rfl) (Or.inr rfl) (by omega) (by omega) (by omega) (by omega)
      · by_cases hc2 : current ≥ total - 2
        · rw [visiblePagesB_high total current (by omega) hc1 hc2]
          exact windowInvariant_mid total current (total - 3) (total - 1)
            [PageItem.dots] [] (Or.inr rfl) (Or.inl rfl)
            (by omega) (by omega) (by omega) (by omega)
        · rw [visiblePagesB_mid total current (by omega) hc1 hc2]
          exact windowInvariant_mid total current (current - 2) (current + 2) _ _
            (by by_cases h : current - 2 > 2 <;> simp [h])
            (by by_cases h : current + 2 < total - 1 <;> simp [h])
            (by omega) (by omega) (by omega) (by omega)
  · intro h
    rw [hA7 h]
    exact ⟨fun k hk1 hk2 => page_mem_pageRange.mpr ⟨hk1, hk2⟩,
      dots_not_mem_pageRange 1 total⟩
  · intro h
    rw [hB5 h]
    exact ⟨fun k hk1 hk2 => page_mem_pageRange.mpr ⟨hk1, hk2⟩,
      dots_not_mem_pageRange 1 total⟩

/-- Witness for C9 at totalPages 9, currentPage 5. -/
theorem c9_visible_pages_window_witness :
    (1 : Int) ≤ 9 ∧ (1 : Int) ≤ 5 ∧ (5 : Int) ≤ 9 ∧
    windowInvariant 9 5 (Pagination.visiblePages 9 5) ∧
    windowInvariant 9 5 (SimplePagination.visiblePages 5 9 5) :=
  ⟨by decide, by decide, by decide,
   (c9_visible_pages_window 9 5 (by decide) (by decide) (by decide)).1,
   (c9_visible_pages_window 9 5 (by decide) (by decide) (by decide)).2.1⟩
